import Mathlib

/-!
Verification development for the rune_analyze executable analyzer.

The definitions below are a shallow embedding of the C sources:
 * `src/rune_checkpoint.c` — checkpoint log, trigger registry, pattern matcher;
 * `src/rune_config.c`     — configuration record and `rune_config_validate`;
 * `src/rune_analysis.c`   — `rune_execute_target` (fork / exit-code recording);
 * `src/runeanalyzer.c`    — `execute_and_analyze` (wait-status decoding and
   output-chunk scanning), `analyze_performance_timing`,
   `detect_memory_vulnerabilities`.

C strings are modelled as `List Char` (NUL-free byte strings); C `double`
values are modelled as exact rationals; C `int` flags written only as 0/1
are modelled as `Bool`.  Wall-clock timestamp formatting (an IO effect) is
omitted from the checkpoint record.
-/

namespace RuneAnalyze

/-- NUL-free C byte string. -/
abbrev CStr := List Char

/-! String literals appearing in the C sources. -/

def sUNKNOWN : CStr := "UNKNOWN".toList
def sMISC : CStr := "MISC".toList
def sLogOverflow : CStr := "LOG: overflow".toList
def sVerbose : CStr := "verbose".toList
def sVERBOSE : CStr := "VERBOSE".toList
def sArrowR : CStr := "==>".toList
def sArrowL : CStr := "<==".toList
def sErrorLower : CStr := "error".toList
def sERROR : CStr := "ERROR".toList
def sWarning : CStr := "warning".toList
def sWARNING : CStr := "WARNING".toList
def sCompiler : CStr := "compiler".toList
def sInterpreter : CStr := "interpreter".toList
def sCritMemCorr : CStr := "critical_memory_corruption".toList
def sCritHeapCorr : CStr := "critical_heap_corruption".toList
def sArithError : CStr := "arithmetic_error".toList
def sCodeCorr : CStr := "code_corruption".toList
def sDebugTrap : CStr := "debug_trap".toList
def sMemAlign : CStr := "memory_alignment_error".toList
def sResExhaust : CStr := "resource_exhaustion".toList
def sStdError : CStr := "standard_error".toList
def sExecSuccess : CStr := "execution_success".toList
def sHighRiskTest : CStr := "high_risk_test_program".toList
def sVulnerable : CStr := "vulnerable".toList
def sVuln : CStr := "vuln".toList
def sOverflowPat : CStr := "overflow".toList
def sBufferPat : CStr := "buffer".toList
def sFreePat : CStr := "free".toList
def sUafPat : CStr := "uaf".toList
def sFormatPat : CStr := "format".toList
def sPrintfPat : CStr := "printf".toList

/-! C string helpers. -/

/-- `strncmp(p, t, n) == 0` over NUL-free byte strings: the empty list plays
the role of the terminating NUL. -/
def strncmpEq : CStr → CStr → Nat → Bool
  | _, _, 0 => true
  | [], [], _ + 1 => true
  | [], _ :: _, _ + 1 => false
  | _ :: _, [], _ + 1 => false
  | a :: p, b :: t, n + 1 => a == b && strncmpEq p t n

/-- `strstr(hay, needle) != NULL`: the needle occurs as a contiguous
substring of the haystack. -/
def cstrstr : CStr → CStr → Bool
  | [], needle => needle.isEmpty
  | c :: rest, needle => needle.isPrefixOf (c :: rest) || cstrstr rest needle

/-- The `RUNE_SAFE_STRNCPY`/`strncpy`-with-terminator idiom used throughout
the sources: copying into a buffer of `size` bytes keeps the first
`size - 1` characters. -/
def strncpyBound (size : Nat) (s : CStr) : CStr := s.take (size - 1)

/-- `strrchr(path, '/')` followed by `+ 1` (or the whole path when there is
no slash): the basename computation used by the analysis passes. -/
def c_basename (path : CStr) : CStr :=
  (path.reverse.takeWhile (fun c => c ≠ '/')).reverse

/-! Checkpoint log and trigger registry (`src/rune_checkpoint.c`). -/

/-- Capacity of the checkpoint log (`rune_analyze.h`). -/
def MAX_CHECKPOINTS : Nat := 1024

/-- Capacity of the trigger registry (literal `64` in `rune_checkpoint.c`). -/
def MAX_TRIGGERS : Nat := 64

/-- `rune_checkpoint_t` (`rune_types.h`); the formatted wall-clock
`timestamp` field is omitted. -/
structure rune_checkpoint where
  id : CStr
  category : CStr
  context : CStr
  time_offset : ℚ
  trigger_fired : Bool
deriving DecidableEq

/-- `rune_trigger_t` (`rune_types.h`); the callback function pointer is
modelled as an opaque numeric identifier. -/
structure rune_trigger where
  pattern : CStr
  name : CStr
  callback : Nat
  enabled : Bool
deriving DecidableEq

/-- The global mutable state of the checkpoint subsystem:
`g_checkpoints`/`g_checkpoint_count` and `g_triggers`/`g_trigger_count`. -/
structure RuneState where
  checkpoints : List rune_checkpoint
  triggers : List rune_trigger
deriving DecidableEq

/-- `rune_pattern_match` (`rune_checkpoint.c:189-203`): `"*"` matches
anything; a pattern ending in `'*'` matches by `strncmp` on the first
`len - 1` bytes; otherwise exact `strcmp`. -/
def rune_pattern_match (pattern text : CStr) : Bool :=
  if pattern = ['*'] then true
  else if pattern.getLast? = some '*' then
    strncmpEq pattern text (pattern.length - 1)
  else pattern = text

/-- `rune_process_checkpoint_triggers` (`rune_checkpoint.c:206-222`):
walks the registry in registration order, skips disabled triggers, sets
`trigger_fired` and invokes the callback on every match.  Returns the
updated checkpoint together with the names of the triggers whose
callbacks were invoked, in invocation order. -/
def rune_process_checkpoint_triggers :
    List rune_trigger → rune_checkpoint → rune_checkpoint × List CStr
  | [], cp => (cp, [])
  | t :: ts, cp =>
    if t.enabled && rune_pattern_match t.pattern cp.id then
      let rest := rune_process_checkpoint_triggers ts { cp with trigger_fired := true }
      (rest.1, t.name :: rest.2)
    else
      rune_process_checkpoint_triggers ts cp

/-- Spec-side description of the triggers that fire on a checkpoint id:
the registered, enabled triggers whose pattern matches, in registration
order. -/
def firing_triggers (triggers : List rune_trigger) (id : CStr) : List rune_trigger :=
  triggers.filter (fun t => t.enabled && rune_pattern_match t.pattern id)

/-- The checkpoint record filled in by `rune_log_checkpoint_with_time`
(`rune_checkpoint.c:60-77`): NULL id/category/context are replaced by
`"UNKNOWN"`/`"MISC"`/empty, every field is truncated to its buffer size,
and `trigger_fired` starts at 0. -/
def built_checkpoint (id category context : Option CStr)
    (time_offset : ℚ) : rune_checkpoint :=
  { id := strncpyBound 64 (id.getD sUNKNOWN)
    category := strncpyBound 16 (category.getD sMISC)
    context := match context with
      | some c => strncpyBound 128 c
      | none => []
    time_offset := time_offset
    trigger_fired := false }

/-- `rune_log_checkpoint_with_time` (`rune_checkpoint.c:54-88`): when the
log is full the call returns at once (the entry is dropped, nothing else
happens); otherwise the filled-in checkpoint is stored and the trigger
registry is run on it.  Returns the new state and the invoked callback
names. -/
def rune_log_checkpoint_with_time (st : RuneState)
    (id category context : Option CStr) (time_offset : ℚ) :
    RuneState × List CStr :=
  if MAX_CHECKPOINTS ≤ st.checkpoints.length then (st, [])
  else
    ({ st with checkpoints := st.checkpoints ++
        [(rune_process_checkpoint_triggers st.triggers
            (built_checkpoint id category context time_offset)).1] },
     (rune_process_checkpoint_triggers st.triggers
        (built_checkpoint id category context time_offset)).2)

/-- `rune_get_checkpoint` (`rune_checkpoint.c:96-101`): NULL outside
`[0, g_checkpoint_count)`, otherwise the stored entry at that index. -/
def rune_get_checkpoint (st : RuneState) (index : Int) : Option rune_checkpoint :=
  if index < 0 ∨ (st.checkpoints.length : Int) ≤ index then none
  else st.checkpoints.get? index.toNat

/-- `rune_register_trigger` (`rune_checkpoint.c:150-166`): fails (−1) only
when the registry is full or one of pattern/name/callback is NULL;
otherwise appends a new enabled trigger (fields truncated to their buffer
sizes) and returns 0. -/
def rune_register_trigger (st : RuneState)
    (pattern name : Option CStr) (callback : Option Nat) : Int × RuneState :=
  if MAX_TRIGGERS ≤ st.triggers.length ∨ pattern = none ∨ name = none ∨ callback = none then
    (-1, st)
  else
    (0, { st with triggers := st.triggers ++
      [{ pattern := strncpyBound 64 (pattern.getD [])
         name := strncpyBound 32 (name.getD [])
         callback := callback.getD 0
         enabled := true }] })

/-! Configuration (`src/rune_config.c`).  The `int` fields that the code
uses only as 0/1 flags are modelled as `Bool`. -/

/-- The configuration record `g_config` as used by `rune_config.c` and
`rune_framework.c`. -/
structure rune_config where
  verbose_mode : Int
  output_format : Int
  enable_security : Bool
  enable_memory : Bool
  enable_performance : Bool
  enable_deep_analysis : Bool
  enable_network_analysis : Bool
  enable_monitoring : Bool
  master_deep_install : Bool
  master_security_scan : Bool
  master_smart_monitor : Bool
  master_threat_analyze : Bool
  master_safe_analyze : Bool
  master_safe_threats : Bool
  force_execution : Bool
  dry_run_mode : Bool
  safe_mode : Bool
  target_executable : CStr
  master_target_package : CStr
deriving DecidableEq

/-- `rune_config_validate` (`rune_config.c:178-230`), written as the nested
conditional the early returns of the C code denote. -/
def rune_config_validate (c : rune_config) : Int :=
  if (c.master_deep_install || c.master_smart_monitor || c.enable_monitoring)
      && !c.force_execution && !c.dry_run_mode then -1
  else if c.master_deep_install || c.master_security_scan || c.master_threat_analyze
      || c.master_safe_analyze || c.master_safe_threats then
    if c.master_target_package.length = 0 then -1 else 0
  else if c.master_smart_monitor then
    if c.target_executable.length = 0 then -1 else 0
  else if c.target_executable.length = 0 then -1
  else 0

/-- `rune_execute_target` (`rune_analysis.c:43-127`) calls `fork` on every
path except dry-run mode (both the monitoring branch and the direct-exec
branch fork unconditionally). -/
def rune_execute_target_forks (c : rune_config) : Bool := !c.dry_run_mode

/-- `main`/`rune_initialize` (`main.c`, `rune_framework.c:36-56`): analysis
— and hence any child-process creation — is reached only when
`rune_config_validate` succeeded. -/
def rune_main_reaches_execution (c : rune_config) : Bool :=
  rune_config_validate c == 0

/-! Wait-status decoding (`<sys/wait.h>` as used by the sources). -/

/-- `WEXITSTATUS`: bits 8–15 of the raw wait status. -/
def WEXITSTATUS (status : Nat) : Nat := (status &&& 0xff00) >>> 8

/-- `WTERMSIG`: low seven bits of the raw wait status. -/
def WTERMSIG (status : Nat) : Nat := status &&& 0x7f

/-- `WIFEXITED`: the low seven bits are zero. -/
def WIFEXITED (status : Nat) : Bool := WTERMSIG status == 0

/-- `WIFSIGNALED`: `((signed char)(((status & 0x7f) + 1) >> 1)) > 0`; the
shifted value lies in `[0, 64]`, so the signed cast is the identity and
the test is just non-zeroness. -/
def WIFSIGNALED (status : Nat) : Bool := ((status &&& 0x7f) + 1) >>> 1 != 0

/-- The exit-code recording of `execute_and_analyze`
(`runeanalyzer.c:509-525`): `WEXITSTATUS` on normal exit, `128 + WTERMSIG`
on a signal kill, and `exit_code` left unchanged otherwise. -/
def execute_and_analyze_exit_code (status : Nat) (prev : Int) : Int :=
  if WIFEXITED status then (WEXITSTATUS status : Int)
  else if WIFSIGNALED status then 128 + (WTERMSIG status : Int)
  else prev

/-- The exit-code recording of `rune_execute_target`
(`rune_analysis.c:88` and `rune_analysis.c:115`): both the monitoring and
the direct-exec branch store `WEXITSTATUS(status)` unconditionally. -/
def rune_execute_target_exit_code (status : Nat) : Int :=
  (WEXITSTATUS status : Int)

/-! Output scanning in the supervision loop (`runeanalyzer.c:543-580`). -/

/-- The IO slice of `rune_results_t` touched by the pipe-reading code. -/
structure io_results where
  stdout_bytes : Nat
  stderr_bytes : Nat
  verbose_messages : Nat
  error_messages : Nat
  warning_messages : Nat
deriving DecidableEq

/-- Handling of a chunk read from the stdout pipe
(`runeanalyzer.c:543-563`): the byte total grows by the chunk length and
each counter is incremented once when any of its case-sensitive tokens
occurs in the chunk. -/
def scan_stdout_chunk (r : io_results) (chunk : CStr) : io_results :=
  let r1 := { r with stdout_bytes := r.stdout_bytes + chunk.length }
  let r2 :=
    if cstrstr chunk sVerbose || cstrstr chunk sVERBOSE
        || cstrstr chunk sArrowR || cstrstr chunk sArrowL then
      { r1 with verbose_messages := r1.verbose_messages + 1 }
    else r1
  let r3 :=
    if cstrstr chunk sErrorLower || cstrstr chunk sERROR then
      { r2 with error_messages := r2.error_messages + 1 }
    else r2
  if cstrstr chunk sWarning || cstrstr chunk sWARNING then
    { r3 with warning_messages := r3.warning_messages + 1 }
  else r3

/-- Handling of a chunk read from the stderr pipe
(`runeanalyzer.c:566-578`): only the byte total is updated; the chunk is
not scanned for any token. -/
def scan_stderr_chunk (r : io_results) (chunk : CStr) : io_results :=
  { r with stderr_bytes := r.stderr_bytes + chunk.length }

/-! Performance timing breakdown (`runeanalyzer.c:701-717`). -/

/-- `analyze_performance_timing`: the heuristic (startup, processing,
cleanup) partition of `execution_time`, keyed on the tool classification;
the C doubles 0.05/0.9/0.3/0.6/0.1/0.8 are modelled as exact rationals. -/
def analyze_performance_timing (tool_classification : CStr)
    (execution_time : ℚ) : ℚ × ℚ × ℚ :=
  if tool_classification = sCompiler then
    (execution_time * (5 / 100), execution_time * (90 / 100), execution_time * (5 / 100))
  else if tool_classification = sInterpreter then
    (execution_time * (30 / 100), execution_time * (60 / 100), execution_time * (10 / 100))
  else
    (execution_time * (10 / 100), execution_time * (80 / 100), execution_time * (10 / 100))

/-! Exit-code driven security scoring (`runeanalyzer.c:863-972`). -/

/-- The security slice of `rune_results_t` mutated by
`detect_memory_vulnerabilities`. -/
structure rune_security_results where
  buffer_overflow_risk : Int
  memory_leak_indicators : Int
  use_after_free_risk : Int
  format_string_vuln : Int
  null_pointer_risk : Int
  integer_overflow_risk : Int
  uninitialized_memory_risk : Int
  overall_security_score : Int
  security_classification : CStr
deriving DecidableEq

/-- The exit-code chain of `detect_memory_vulnerabilities`
(`runeanalyzer.c:874-928`). -/
def dmv_exit_code_chain (exit_code : Int)
    (r : rune_security_results) : rune_security_results :=
  if exit_code = 139 then
    { r with buffer_overflow_risk := 5, use_after_free_risk := 5,
             null_pointer_risk := 5, overall_security_score := 1,
             security_classification := strncpyBound 64 sCritMemCorr }
  else if exit_code = 134 then
    { r with use_after_free_risk := 5, memory_leak_indicators := 4,
             overall_security_score := 1,
             security_classification := strncpyBound 64 sCritHeapCorr }
  else if exit_code = 136 then
    { r with integer_overflow_risk := 5, overall_security_score := 2,
             security_classification := strncpyBound 64 sArithError }
  else if exit_code = 132 then
    { r with buffer_overflow_risk := 4, overall_security_score := 2,
             security_classification := strncpyBound 64 sCodeCorr }
  else if exit_code = 133 then
    { r with overall_security_score := 6,
             security_classification := strncpyBound 64 sDebugTrap }
  else if exit_code = 135 then
    { r with buffer_overflow_risk := 4, uninitialized_memory_risk := 3,
             overall_security_score := 2,
             security_classification := strncpyBound 64 sMemAlign }
  else if exit_code = 137 then
    { r with memory_leak_indicators := 3, overall_security_score := 4,
             security_classification := strncpyBound 64 sResExhaust }
  else if 1 ≤ exit_code ∧ exit_code ≤ 2 then
    { r with overall_security_score := 7,
             security_classification := strncpyBound 64 sStdError }
  else if exit_code = 0 then
    { r with overall_security_score := 9,
             security_classification := strncpyBound 64 sExecSuccess }
  else r

/-- The vulnerable-test-program override of `detect_memory_vulnerabilities`
(`runeanalyzer.c:933-941`). -/
def dmv_test_program_override (basename : CStr) (exit_code : Int)
    (r : rune_security_results) : rune_security_results :=
  if cstrstr basename sVulnerable || cstrstr basename sVuln then
    if exit_code = 0 then
      { r with overall_security_score := 2,
               security_classification := strncpyBound 64 sHighRiskTest }
    else r
  else r

/-- The memory-allocation-rate heuristic of `detect_memory_vulnerabilities`
(`runeanalyzer.c:944-951`). -/
def dmv_memory_rate (peak_memory_kb : Int) (execution_time : ℚ)
    (r : rune_security_results) : rune_security_results :=
  if 0 < peak_memory_kb ∧ (1 / 10 : ℚ) < execution_time ∧
      (50000 : ℚ) < (peak_memory_kb : ℚ) / execution_time then
    { r with memory_leak_indicators := r.memory_leak_indicators + 1,
             overall_security_score := r.overall_security_score - 1 }
  else r

/-- The filename-pattern adjustments of `detect_memory_vulnerabilities`
(`runeanalyzer.c:954-967`). -/
def dmv_filename_patterns (basename : CStr)
    (r : rune_security_results) : rune_security_results :=
  let r1 :=
    if cstrstr basename sOverflowPat || cstrstr basename sBufferPat then
      { r with buffer_overflow_risk := r.buffer_overflow_risk + 3,
               overall_security_score := r.overall_security_score - 2 }
    else r
  let r2 :=
    if cstrstr basename sFreePat || cstrstr basename sUafPat then
      { r1 with use_after_free_risk := r1.use_after_free_risk + 3,
                overall_security_score := r1.overall_security_score - 2 }
    else r1
  if cstrstr basename sFormatPat || cstrstr basename sPrintfPat then
    { r2 with format_string_vuln := r2.format_string_vuln + 3,
              overall_security_score := r2.overall_security_score - 2 }
  else r2

/-- The final clamp of the overall score into `[1, 10]`
(`runeanalyzer.c:970-971`). -/
def dmv_clamp (r : rune_security_results) : rune_security_results :=
  let r1 :=
    if r.overall_security_score < 1 then { r with overall_security_score := 1 } else r
  if 10 < r1.overall_security_score then { r1 with overall_security_score := 10 } else r1

/-- `detect_memory_vulnerabilities` (`runeanalyzer.c:863-972`): the
exit-code chain, the vulnerable-test-program override, the
memory-allocation-rate heuristic, the filename-pattern adjustments and
the final clamp, in source order. -/
def detect_memory_vulnerabilities (target_executable : CStr) (exit_code : Int)
    (peak_memory_kb : Int) (execution_time : ℚ)
    (r : rune_security_results) : rune_security_results :=
  dmv_clamp
    (dmv_filename_patterns (c_basename target_executable)
      (dmv_memory_rate peak_memory_kb execution_time
        (dmv_test_program_override (c_basename target_executable) exit_code
          (dmv_exit_code_chain exit_code r))))

/-! Concrete fixtures used to evaluate the model on closed inputs. -/

def sSEC : CStr := "SEC".toList
def sAB : CStr := "ab".toList
def patP : CStr := "SEC:".toList
def patPStar : CStr := "SEC:*".toList
def sSECtest : CStr := "SEC: test".toList

/-- An all-zero checkpoint record. -/
def cpZero : rune_checkpoint :=
  { id := [], category := [], context := [], time_offset := 0, trigger_fired := false }

/-- A checkpoint log at capacity. -/
def stFull : RuneState :=
  { checkpoints := List.replicate MAX_CHECKPOINTS cpZero, triggers := [] }

/-- A registry holding one trigger named `n`. -/
def trigN : rune_trigger :=
  { pattern := ['p'], name := ['n'], callback := 1, enabled := true }

def stDup : RuneState := { checkpoints := [], triggers := [trigN] }

/-- The security trigger registered by `rune_initialize`. -/
def trigSEC : rune_trigger :=
  { pattern := patPStar, name := "sec_mon".toList, callback := 1, enabled := true }

def stOneTrigger : RuneState := { checkpoints := [], triggers := [trigSEC] }

/-- Two distinct stored checkpoints, for exercising the accessor. -/
def cpA : rune_checkpoint :=
  { id := ['a'], category := sSEC, context := [], time_offset := 0, trigger_fired := false }

def cpB : rune_checkpoint :=
  { id := ['b'], category := sSEC, context := [], time_offset := 1, trigger_fired := false }

def stTwoCps : RuneState := { checkpoints := [cpA, cpB], triggers := [] }

/-- A plain direct-exec configuration: defaults of `rune_config_init`
plus a parsed target path, no `--monitor`, no `-f`, no `--dry-run`. -/
def cfgDirectExec : rune_config :=
  { verbose_mode := 1, output_format := 0, enable_security := true, enable_memory := true,
    enable_performance := true, enable_deep_analysis := false,
    enable_network_analysis := false, enable_monitoring := false,
    master_deep_install := false, master_security_scan := false,
    master_smart_monitor := false, master_threat_analyze := false,
    master_safe_analyze := false, master_safe_threats := false,
    force_execution := false, dry_run_mode := false, safe_mode := false,
    target_executable := "demo_app".toList, master_target_package := [] }

/-- A `--monitor "echo ok"` configuration without `-f`. -/
def cfgMonitorNoForce : rune_config :=
  { cfgDirectExec with enable_monitoring := true, target_executable := "echo ok".toList }

/-- Zero-initialised IO counters. -/
def ioZero : io_results :=
  { stdout_bytes := 0, stderr_bytes := 0, verbose_messages := 0,
    error_messages := 0, warning_messages := 0 }

/-- Security results as left by `analyze_security_patterns` on a path
without special basename patterns: zero risks, perfect score. -/
def secZero : rune_security_results :=
  { buffer_overflow_risk := 0, memory_leak_indicators := 0, use_after_free_risk := 0,
    format_string_vuln := 0, null_pointer_risk := 0, integer_overflow_risk := 0,
    uninitialized_memory_risk := 0, overall_security_score := 10,
    security_classification := [] }

/-- A target whose basename contains the pattern `"buffer"`. -/
def targetBuffer : CStr := "buffer_test".toList

/-- A target whose basename contains none of the filename patterns. -/
def targetSegv : CStr := "segv_app".toList

/-! Helper lemmas about the embedded string primitives. -/

/-- Comparing the first `|pre|` bytes of `pre ++ "*"` against `s` succeeds
exactly when `pre` is a prefix of `s`. -/
lemma strncmpEq_append_star (pre : CStr) :
    ∀ s : CStr, strncmpEq (pre ++ ['*']) s pre.length = true ↔ pre <+: s := by
  induction pre with
  | nil =>
    intro s
    simp [strncmpEq, List.nil_prefix]
  | cons c pre ih =>
    intro s
    cases s with
    | nil => simp [strncmpEq]
    | cons b s' =>
      simp [strncmpEq, List.cons_prefix_cons, ih s']

/-- The prefix branch of the matcher, in isolation. -/
lemma pattern_match_append_star (pre s : CStr) :
    rune_pattern_match (pre ++ ['*']) s = true ↔ pre <+: s := by
  cases pre with
  | nil => simp [rune_pattern_match, List.nil_prefix]
  | cons c pre' =>
    have hne : (c :: pre') ++ ['*'] ≠ ['*'] := by simp
    have hcat : ∀ l : List Char, (l ++ ['*']).getLast? = some '*' := fun l => by
      simp [List.getLast?_concat]
    have hlast : ((c :: pre') ++ ['*']).getLast? = some '*' := hcat (c :: pre')
    have hlen : ((c :: pre') ++ ['*']).length - 1 = (c :: pre').length := by simp
    rw [rune_pattern_match, if_neg hne, if_pos hlast, hlen]
    exact strncmpEq_append_star (c :: pre') s

/-- C4: the trigger pattern matcher satisfies the three documented laws:
the pattern `"*"` matches every id; a pattern not containing `'*'` matches
exactly itself; and a pattern of the form `PREFIX*` matches exactly the
ids whose first `|PREFIX|` bytes equal `PREFIX`. -/
theorem C4_pattern_match_laws (p s : CStr) :
    rune_pattern_match ['*'] s = true ∧
    ('*' ∉ p → (rune_pattern_match p s = true ↔ p = s)) ∧
    (∀ pre : CStr, p = pre ++ ['*'] → (rune_pattern_match p s = true ↔ pre <+: s)) := by
  refine ⟨by simp [rune_pattern_match], ?_, ?_⟩
  · intro hstar
    have h1 : p ≠ ['*'] := by
      rintro rfl
      exact hstar (List.mem_singleton.mpr rfl)
    have h2 : ¬ p.getLast? = some '*' := fun h => hstar (List.mem_of_mem_getLast? h)
    rw [rune_pattern_match, if_neg h1, if_neg h2]
    simp
  · rintro pre rfl
    exact pattern_match_append_star pre s

/-- C4 witness: the exact-match law at `p = s = "ab"` and the prefix law at
`"SEC:*"` against `"SEC: test"`. -/
theorem C4_pattern_match_laws_witness :
    ('*' ∉ sAB ∧ (rune_pattern_match sAB sAB = true ↔ sAB = sAB)) ∧
    (patPStar = patP ++ ['*'] ∧
      (rune_pattern_match patPStar sSECtest = true ↔ patP <+: sSECtest)) :=
  ⟨⟨by decide, (C4_pattern_match_laws sAB sAB).2.1 (by decide)⟩,
   ⟨by decide, (C4_pattern_match_laws patPStar sSECtest).2.2 patP (by decide)⟩⟩

/-- C2 (amended): when the log is at capacity every further log call drops
the new entry and leaves the whole state unchanged, runs no callbacks, and
returns normally — no overflow meta-checkpoint is emitted. -/
theorem C2_overflow_drops (st : RuneState) (id category context : Option CStr)
    (t : ℚ) (hfull : MAX_CHECKPOINTS ≤ st.checkpoints.length) :
    rune_log_checkpoint_with_time st id category context t = (st, []) := by
  unfold rune_log_checkpoint_with_time
  rw [if_pos hfull]

/-- C2 witness: dropping at a concrete full log. -/
theorem C2_overflow_drops_witness :
    MAX_CHECKPOINTS ≤ stFull.checkpoints.length ∧
    rune_log_checkpoint_with_time stFull (some sSECtest) (some sSEC) none 0 = (stFull, []) :=
  ⟨by simp [stFull], C2_overflow_drops stFull _ _ _ _ (by simp [stFull])⟩

/-- C2 counterexample: logging into a full log whose entries carry no
`"LOG: overflow"` id leaves the log without any such meta-checkpoint —
the overflow marker required by the claim is never emitted. -/
theorem C2_no_overflow_marker :
    rune_log_checkpoint_with_time stFull (some sSECtest) (some sSEC) none 0 = (stFull, []) ∧
    ((rune_log_checkpoint_with_time stFull (some sSECtest) (some sSEC) none 0).1.checkpoints.any
        (fun cp => cp.id == sLogOverflow)) = false := by
  have hfull : MAX_CHECKPOINTS ≤ stFull.checkpoints.length := by simp [stFull]
  constructor
  · unfold rune_log_checkpoint_with_time
    rw [if_pos hfull]
  · unfold rune_log_checkpoint_with_time
    rw [if_pos hfull]
    simp [stFull, cpZero, sLogOverflow]

/-- C9 (amended): trigger registration performs no duplicate-name check —
it fails only when the registry is full or an argument is NULL, and on
success simply appends the new trigger, so a duplicate name is accepted. -/
theorem C9_register_no_name_check (st : RuneState) (pattern name : Option CStr)
    (cb : Option Nat) :
    ((MAX_TRIGGERS ≤ st.triggers.length ∨ pattern = none ∨ name = none ∨ cb = none) →
      rune_register_trigger st pattern name cb = (-1, st)) ∧
    (st.triggers.length < MAX_TRIGGERS → ∀ pl nl cbv,
      pattern = some pl → name = some nl → cb = some cbv →
      (rune_register_trigger st pattern name cb).1 = 0 ∧
      (rune_register_trigger st pattern name cb).2.triggers =
        st.triggers ++ [{ pattern := strncpyBound 64 pl, name := strncpyBound 32 nl,
                          callback := cbv, enabled := true }]) := by
  constructor
  · intro h
    rw [rune_register_trigger, if_pos h]
  · rintro hlt pl nl cbv rfl rfl rfl
    have h : ¬ (MAX_TRIGGERS ≤ st.triggers.length ∨ (some pl : Option CStr) = none ∨
        (some nl : Option CStr) = none ∨ (some cbv : Option Nat) = none) := by
      simp [not_le.mpr hlt]
    rw [rune_register_trigger, if_neg h]
    simp

/-- C9 witness: a successful registration onto a registry that already
holds a trigger with the same name. -/
theorem C9_register_no_name_check_witness :
    stDup.triggers.length < MAX_TRIGGERS ∧
    ((rune_register_trigger stDup (some ['q']) (some ['n']) (some 2)).1 = 0 ∧
      (rune_register_trigger stDup (some ['q']) (some ['n']) (some 2)).2.triggers =
        stDup.triggers ++ [{ pattern := strncpyBound 64 ['q'], name := strncpyBound 32 ['n'],
                             callback := 2, enabled := true }]) :=
  ⟨by decide,
   (C9_register_no_name_check stDup (some ['q']) (some ['n']) (some 2)).2
     (by decide) ['q'] ['n'] 2 rfl rfl rfl⟩

/-- C9 counterexample: registering a trigger whose name duplicates an
existing one succeeds (returns 0) and leaves two triggers with the same
name in the registry, refuting the claimed failure and uniqueness. -/
theorem C9_duplicate_name_accepted :
    (rune_register_trigger stDup (some ['q']) (some ['n']) (some 2)).1 = 0 ∧
    ((rune_register_trigger stDup (some ['q']) (some ['n']) (some 2)).2.triggers.map
        rune_trigger.name) = [['n'], ['n']] := by decide

/-- C10: the checkpoint accessor returns NULL exactly outside
`[0, count)` and otherwise the `i`-th stored checkpoint; in-bounds access
is total (the model never reads outside the list). -/
theorem C10_get_checkpoint_bounds (st : RuneState) (i : Int) :
    ((i < 0 ∨ (st.checkpoints.length : Int) ≤ i) → rune_get_checkpoint st i = none) ∧
    (0 ≤ i → i < (st.checkpoints.length : Int) →
      ∃ h : i.toNat < st.checkpoints.length,
        rune_get_checkpoint st i = some (st.checkpoints.get ⟨i.toNat, h⟩)) := by
  constructor
  · intro h
    rw [rune_get_checkpoint, if_pos h]
  · intro h0 hlt
    have hn : i.toNat < st.checkpoints.length := by omega
    refine ⟨hn, ?_⟩
    have hcond : ¬ (i < 0 ∨ (st.checkpoints.length : Int) ≤ i) := by omega
    rw [rune_get_checkpoint, if_neg hcond, List.get?_eq_get hn]

/-- C10 witness: an out-of-bounds and an in-bounds access on a two-entry
log. -/
theorem C10_get_checkpoint_bounds_witness :
    (((5 : Int) < 0 ∨ (stTwoCps.checkpoints.length : Int) ≤ 5) ∧
      rune_get_checkpoint stTwoCps 5 = none) ∧
    (0 ≤ (1 : Int) ∧ (1 : Int) < (stTwoCps.checkpoints.length : Int) ∧
      ∃ h : (1 : Int).toNat < stTwoCps.checkpoints.length,
        rune_get_checkpoint stTwoCps 1 =
          some (stTwoCps.checkpoints.get ⟨(1 : Int).toNat, h⟩)) :=
  ⟨⟨by decide, (C10_get_checkpoint_bounds stTwoCps 5).1 (by decide)⟩,
   ⟨by decide, by decide,
    (C10_get_checkpoint_bounds stTwoCps 1).2 (by decide) (by decide)⟩⟩

/-- C1 (amended): the force gate covers exactly the deep-install,
smart-monitor and `--monitor` modes — for those, with `force_execution`
false and dry-run off, validation fails with −1 and the framework never
reaches execution (hence never forks).  Direct exec is not covered. -/
theorem C1_force_gate (c : rune_config)
    (hmode : c.master_deep_install = true ∨ c.master_smart_monitor = true ∨
      c.enable_monitoring = true)
    (hforce : c.force_execution = false) (hdry : c.dry_run_mode = false) :
    rune_config_validate c = -1 ∧ rune_main_reaches_execution c = false := by
  have hcond : ((c.master_deep_install || c.master_smart_monitor || c.enable_monitoring)
      && !c.force_execution && !c.dry_run_mode) = true := by
    rcases hmode with h | h | h <;> simp [h, hforce, hdry]
  have hv : rune_config_validate c = -1 := by
    rw [rune_config_validate, if_pos hcond]
  refine ⟨hv, ?_⟩
  rw [rune_main_reaches_execution, hv]
  rfl

/-- C1 witness: the gate at a concrete `--monitor` configuration without
`-f`. -/
theorem C1_force_gate_witness :
    (cfgMonitorNoForce.master_deep_install = true ∨
      cfgMonitorNoForce.master_smart_monitor = true ∨
      cfgMonitorNoForce.enable_monitoring = true) ∧
    cfgMonitorNoForce.force_execution = false ∧
    cfgMonitorNoForce.dry_run_mode = false ∧
    (rune_config_validate cfgMonitorNoForce = -1 ∧
      rune_main_reaches_execution cfgMonitorNoForce = false) :=
  ⟨by decide, by decide, by decide,
   C1_force_gate cfgMonitorNoForce (by decide) (by decide) (by decide)⟩

/-- C1 counterexample: a plain direct-exec invocation (target path given,
no `--monitor`, no `-f`, no dry-run) passes validation with result 0, and
`rune_execute_target` then forks — the claim that every execution-capable
mode fails validation without force is false for direct exec. -/
theorem C1_direct_exec_not_gated :
    rune_config_validate cfgDirectExec = 0 ∧
    cfgDirectExec.force_execution = false ∧
    cfgDirectExec.dry_run_mode = false ∧
    rune_execute_target_forks cfgDirectExec = true := by decide

/-- C3: the exit-code recording of `execute_and_analyze`: on a normally
exited wait status the recorded exit code is `WEXITSTATUS`, and on a
signal-killed status with signal `n` it is `128 + n`; additionally, the
skeleton `rune_execute_target` evaluated at the SIGSEGV kill status 11
records 0 instead of 139 — the code slip behind this claim's bug. -/
theorem C3_exit_code_decoding :
    (∀ (status : Nat) (prev : Int), WIFEXITED status = true →
      execute_and_analyze_exit_code status prev = (WEXITSTATUS status : Int)) ∧
    (∀ (status : Nat) (prev : Int) (n : Nat),
      WIFSIGNALED status = true → WTERMSIG status = n →
      execute_and_analyze_exit_code status prev = 128 + (n : Int)) ∧
    rune_execute_target_exit_code 11 = 0 := by
  refine ⟨?_, ?_, by decide⟩
  · intro status prev h
    rw [execute_and_analyze_exit_code, if_pos h]
  · rintro status prev n hsig rfl
    have hx : ¬ status &&& 0x7f = 0 := by
      intro h0
      rw [WIFSIGNALED, h0] at hsig
      exact absurd hsig (by decide)
    have hex : ¬ WIFEXITED status = true := by
      rw [WIFEXITED, WTERMSIG]
      simp [hx]
    rw [execute_and_analyze_exit_code, if_neg hex, if_pos hsig]

/-- C3 witness: a normal exit with code 2 (raw status 0x0200) and a
SIGSEGV kill (raw status 11) decoded to 139; evaluation of the skeleton
recorder at the same kill status. -/
theorem C3_exit_code_decoding_witness :
    execute_and_analyze_exit_code 0x0200 7 = 2 ∧
    execute_and_analyze_exit_code 11 7 = 139 ∧
    rune_execute_target_exit_code 11 = 0 :=
  ⟨(C3_exit_code_decoding.1 0x0200 7 (by decide)).trans (by decide),
   (C3_exit_code_decoding.2.1 11 7 11 (by decide) (by decide)).trans (by decide),
   C3_exit_code_decoding.2.2⟩

/-- C7 (amended): a chunk read from the stdout pipe bumps `stdout_bytes`
by the chunk length and each message counter by one exactly when one of
its case-sensitive tokens occurs in the chunk; a chunk read from the
stderr pipe only bumps `stderr_bytes` — it is not scanned at all. -/
theorem C7_chunk_scanning (r : io_results) (chunk : CStr) :
    (scan_stdout_chunk r chunk).stdout_bytes = r.stdout_bytes + chunk.length ∧
    (scan_stdout_chunk r chunk).stderr_bytes = r.stderr_bytes ∧
    (scan_stdout_chunk r chunk).verbose_messages = r.verbose_messages +
      (if cstrstr chunk sVerbose || cstrstr chunk sVERBOSE
          || cstrstr chunk sArrowR || cstrstr chunk sArrowL then 1 else 0) ∧
    (scan_stdout_chunk r chunk).error_messages = r.error_messages +
      (if cstrstr chunk sErrorLower || cstrstr chunk sERROR then 1 else 0) ∧
    (scan_stdout_chunk r chunk).warning_messages = r.warning_messages +
      (if cstrstr chunk sWarning || cstrstr chunk sWARNING then 1 else 0) ∧
    scan_stderr_chunk r chunk =
      { r with stderr_bytes := r.stderr_bytes + chunk.length } := by
  refine ⟨?_, ?_, ?_, ?_, ?_, rfl⟩ <;>
    · simp only [scan_stdout_chunk]
      split_ifs <;> simp

/-- C7 counterexample: the stderr pipe handler leaves `error_messages`
untouched on a chunk containing `"error"` (while the stdout handler
counts it), refuting the claim that both pipes are scanned. -/
theorem C7_stderr_not_scanned :
    (scan_stderr_chunk ioZero sErrorLower).stderr_bytes = 5 ∧
    (scan_stderr_chunk ioZero sErrorLower).error_messages = 0 ∧
    (scan_stdout_chunk ioZero sErrorLower).error_messages = 1 := by decide

/-- C8: the timing breakdown is the documented heuristic partition keyed
on the tool classification — 5/90/5 for compilers, 30/60/10 for
interpreters, 10/80/10 otherwise — and the three phases always sum
exactly to the execution time. -/
theorem C8_timing_partition (tc : CStr) (t : ℚ) :
    ((analyze_performance_timing tc t).1 + (analyze_performance_timing tc t).2.1 +
      (analyze_performance_timing tc t).2.2 = t) ∧
    analyze_performance_timing sCompiler t =
      (t * (5 / 100), t * (90 / 100), t * (5 / 100)) ∧
    analyze_performance_timing sInterpreter t =
      (t * (30 / 100), t * (60 / 100), t * (10 / 100)) ∧
    (tc ≠ sCompiler → tc ≠ sInterpreter →
      analyze_performance_timing tc t =
        (t * (10 / 100), t * (80 / 100), t * (10 / 100))) := by
  refine ⟨?_, ?_, ?_, ?_⟩
  · simp only [analyze_performance_timing]
    split_ifs <;> ring
  · rw [analyze_performance_timing, if_pos rfl]
  · rw [analyze_performance_timing, if_neg (by decide), if_pos rfl]
  · intro h1 h2
    rw [analyze_performance_timing, if_neg h1, if_neg h2]

/-- C8 witness: the default split at the classification `"UNKNOWN"`
(neither compiler nor interpreter) and execution time 2. -/
theorem C8_timing_partition_witness :
    sUNKNOWN ≠ sCompiler ∧ sUNKNOWN ≠ sInterpreter ∧
    analyze_performance_timing sUNKNOWN 2 =
      (2 * (10 / 100), 2 * (80 / 100), 2 * (10 / 100)) :=
  ⟨by decide, by decide,
   (C8_timing_partition sUNKNOWN 2).2.2.2 (by decide) (by decide)⟩

/-- The checkpoint returned by trigger dispatch: the input with
`trigger_fired` or-ed with "some enabled trigger matches". -/
lemma process_triggers_fst (trig : List rune_trigger) (cp : rune_checkpoint) :
    (rune_process_checkpoint_triggers trig cp).1 =
      { cp with trigger_fired := cp.trigger_fired ||
          trig.any (fun t => t.enabled && rune_pattern_match t.pattern cp.id) } := by
  induction trig generalizing cp with
  | nil => simp [rune_process_checkpoint_triggers]
  | cons t ts ih =>
    by_cases h : (t.enabled && rune_pattern_match t.pattern cp.id) = true
    · simp [rune_process_checkpoint_triggers, h, ih]
    · simp [rune_process_checkpoint_triggers, h, ih]

/-- The callbacks invoked by trigger dispatch: exactly the enabled,
matching triggers, in registration order. -/
lemma process_triggers_snd (trig : List rune_trigger) (cp : rune_checkpoint) :
    (rune_process_checkpoint_triggers trig cp).2 =
      (firing_triggers trig cp.id).map rune_trigger.name := by
  induction trig generalizing cp with
  | nil => simp [rune_process_checkpoint_triggers, firing_triggers]
  | cons t ts ih =>
    by_cases h : (t.enabled && rune_pattern_match t.pattern cp.id) = true
    · simp [rune_process_checkpoint_triggers, firing_triggers, h, ih]
    · simp [rune_process_checkpoint_triggers, firing_triggers, h, ih]

/-- C6: on every append into a non-full log the registry is walked in
registration order with disabled triggers skipped — the invoked callbacks
are exactly those of the enabled triggers whose pattern matches the
checkpoint id — and the stored checkpoint has `trigger_fired = true` iff
at least one registered, enabled trigger's pattern matched its id. -/
theorem C6_trigger_dispatch (st : RuneState) (id category context : Option CStr)
    (t : ℚ) (hroom : st.checkpoints.length < MAX_CHECKPOINTS) :
    (rune_log_checkpoint_with_time st id category context t).2 =
      (firing_triggers st.triggers (strncpyBound 64 (id.getD sUNKNOWN))).map
        rune_trigger.name ∧
    ∃ cp : rune_checkpoint,
      (rune_log_checkpoint_with_time st id category context t).1.checkpoints =
        st.checkpoints ++ [cp] ∧
      cp.id = strncpyBound 64 (id.getD sUNKNOWN) ∧
      (cp.trigger_fired = true ↔
        ∃ tr ∈ st.triggers, tr.enabled = true ∧
          rune_pattern_match tr.pattern cp.id = true) := by
  have hnot : ¬ MAX_CHECKPOINTS ≤ st.checkpoints.length := not_le.mpr hroom
  unfold rune_log_checkpoint_with_time
  rw [if_neg hnot]
  refine ⟨?_, ⟨(rune_process_checkpoint_triggers st.triggers
      (built_checkpoint id category context t)).1, rfl, ?_, ?_⟩⟩
  · rw [process_triggers_snd]
    rfl
  · rw [process_triggers_fst]
    simp [built_checkpoint]
  · rw [process_triggers_fst]
    simp [built_checkpoint, List.any_eq_true, Bool.and_eq_true]

/-- C6 witness: appending `"SEC: test"` with the `SEC:*` trigger of
`rune_initialize` registered fires that trigger. -/
theorem C6_trigger_dispatch_witness :
    stOneTrigger.checkpoints.length < MAX_CHECKPOINTS ∧
    ((rune_log_checkpoint_with_time stOneTrigger (some sSECtest) (some sSEC) none 0).2 =
      (firing_triggers stOneTrigger.triggers
        (strncpyBound 64 ((some sSECtest).getD sUNKNOWN))).map rune_trigger.name ∧
     ∃ cp : rune_checkpoint,
      (rune_log_checkpoint_with_time stOneTrigger
          (some sSECtest) (some sSEC) none 0).1.checkpoints =
        stOneTrigger.checkpoints ++ [cp] ∧
      cp.id = strncpyBound 64 ((some sSECtest).getD sUNKNOWN) ∧
      (cp.trigger_fired = true ↔
        ∃ tr ∈ stOneTrigger.triggers, tr.enabled = true ∧
          rune_pattern_match tr.pattern cp.id = true)) :=
  ⟨by decide,
   C6_trigger_dispatch stOneTrigger (some sSECtest) (some sSEC) none 0 (by decide)⟩

/-- The exit-code chain at a SIGSEGV exit code, explicitly. -/
lemma dmv_exit_chain_139 (r : rune_security_results) :
    dmv_exit_code_chain 139 r =
      { r with buffer_overflow_risk := 5, use_after_free_risk := 5,
               null_pointer_risk := 5, overall_security_score := 1,
               security_classification := strncpyBound 64 sCritMemCorr } := by
  unfold dmv_exit_code_chain
  rw [if_pos rfl]

/-- The test-program override is the identity on a non-zero exit code. -/
lemma dmv_test_program_override_ne_zero (bn : CStr) (e : Int)
    (r : rune_security_results) (h : e ≠ 0) :
    dmv_test_program_override bn e r = r := by
  unfold dmv_test_program_override
  split_ifs <;> simp_all

/-- The memory-rate heuristic keeps classification and buffer risk, and
lowers the score by at most one. -/
lemma dmv_memory_rate_fields (p : Int) (t : ℚ) (r : rune_security_results) :
    (dmv_memory_rate p t r).security_classification = r.security_classification ∧
    (dmv_memory_rate p t r).buffer_overflow_risk = r.buffer_overflow_risk ∧
    r.overall_security_score - 1 ≤ (dmv_memory_rate p t r).overall_security_score ∧
    (dmv_memory_rate p t r).overall_security_score ≤ r.overall_security_score := by
  unfold dmv_memory_rate
  split_ifs <;> simp

/-- The filename patterns keep the classification and lower the score by
at most six. -/
lemma dmv_filename_patterns_fields (bn : CStr) (r : rune_security_results) :
    (dmv_filename_patterns bn r).security_classification = r.security_classification ∧
    r.overall_security_score - 6 ≤ (dmv_filename_patterns bn r).overall_security_score ∧
    (dmv_filename_patterns bn r).overall_security_score ≤ r.overall_security_score := by
  unfold dmv_filename_patterns
  split_ifs <;> simp <;> omega

/-- Without `"overflow"`/`"buffer"` in the basename the buffer risk is
untouched by the filename patterns. -/
lemma dmv_filename_patterns_bo (bn : CStr) (r : rune_security_results)
    (h1 : cstrstr bn sOverflowPat = false) (h2 : cstrstr bn sBufferPat = false) :
    (dmv_filename_patterns bn r).buffer_overflow_risk = r.buffer_overflow_risk := by
  unfold dmv_filename_patterns
  rw [h1, h2]
  split_ifs <;> simp_all

/-- The clamp touches only the overall score. -/
lemma dmv_clamp_fields (r : rune_security_results) :
    (dmv_clamp r).security_classification = r.security_classification ∧
    (dmv_clamp r).buffer_overflow_risk = r.buffer_overflow_risk := by
  simp only [dmv_clamp]
  split_ifs <;> simp_all

/-- Clamping a score at most one yields exactly one. -/
lemma dmv_clamp_score_of_le_one (r : rune_security_results)
    (h : r.overall_security_score ≤ 1) :
    (dmv_clamp r).overall_security_score = 1 := by
  simp only [dmv_clamp]
  split_ifs <;> simp_all <;> omega

/-- C5 (amended): for every run recorded with exit code 139, security
scoring sets `security_classification = "critical_memory_corruption"` and
`overall_security_score = 1`; `buffer_overflow_risk = 5` additionally
holds whenever the target basename contains neither `"overflow"` nor
`"buffer"` (otherwise the filename heuristic raises it to 8). -/
theorem C5_segv_scoring (target : CStr) (peak : Int) (t : ℚ)
    (r : rune_security_results) :
    (detect_memory_vulnerabilities target 139 peak t r).security_classification =
      sCritMemCorr ∧
    (detect_memory_vulnerabilities target 139 peak t r).overall_security_score = 1 ∧
    (cstrstr (c_basename target) sOverflowPat = false →
      cstrstr (c_basename target) sBufferPat = false →
      (detect_memory_vulnerabilities target 139 peak t r).buffer_overflow_risk = 5) := by
  have hcl : strncpyBound 64 sCritMemCorr = sCritMemCorr := by decide
  have hover := dmv_test_program_override_ne_zero (c_basename target) 139
    (dmv_exit_code_chain 139 r) (by norm_num)
  have hres : detect_memory_vulnerabilities target 139 peak t r =
      dmv_clamp (dmv_filename_patterns (c_basename target)
        (dmv_memory_rate peak t (dmv_exit_code_chain 139 r))) := by
    unfold detect_memory_vulnerabilities
    rw [hover]
  have h139 := dmv_exit_chain_139 r
  have e1 : (dmv_exit_code_chain 139 r).overall_security_score = 1 := by rw [h139]
  have e2 : (dmv_exit_code_chain 139 r).buffer_overflow_risk = 5 := by rw [h139]
  have e3 : (dmv_exit_code_chain 139 r).security_classification =
      strncpyBound 64 sCritMemCorr := by rw [h139]
  have hrate := dmv_memory_rate_fields peak t (dmv_exit_code_chain 139 r)
  have hpat := dmv_filename_patterns_fields (c_basename target)
    (dmv_memory_rate peak t (dmv_exit_code_chain 139 r))
  have hclamp := dmv_clamp_fields (dmv_filename_patterns (c_basename target)
    (dmv_memory_rate peak t (dmv_exit_code_chain 139 r)))
  refine ⟨?_, ?_, ?_⟩
  · rw [hres, hclamp.1, hpat.1, hrate.1, e3, hcl]
  · rw [hres]
    exact dmv_clamp_score_of_le_one _ (by omega)
  · intro hb1 hb2
    rw [hres, hclamp.2, dmv_filename_patterns_bo _ _ hb1 hb2, hrate.2.1, e2]


/-- C5 witness: a SIGSEGV run of a target whose basename carries no
filename pattern. -/
theorem C5_segv_scoring_witness :
    cstrstr (c_basename targetSegv) sOverflowPat = false ∧
    cstrstr (c_basename targetSegv) sBufferPat = false ∧
    (detect_memory_vulnerabilities targetSegv 139 0 0 secZero).security_classification =
      sCritMemCorr ∧
    (detect_memory_vulnerabilities targetSegv 139 0 0 secZero).overall_security_score = 1 ∧
    (detect_memory_vulnerabilities targetSegv 139 0 0 secZero).buffer_overflow_risk = 5 :=
  ⟨by decide, by decide,
   (C5_segv_scoring targetSegv 0 0 secZero).1,
   (C5_segv_scoring targetSegv 0 0 secZero).2.1,
   (C5_segv_scoring targetSegv 0 0 secZero).2.2 (by decide) (by decide)⟩

/-- C5 counterexample: a SIGSEGV run of a target named `"buffer_test"`
ends with `buffer_overflow_risk = 8`, not 5 — the filename heuristic adds
3 on top of the exit-code assignment, refuting the claim as stated. -/
theorem C5_buffer_basename_excess_risk :
    (detect_memory_vulnerabilities targetBuffer 139 0 0 secZero).buffer_overflow_risk = 8 ∧
    ¬ (detect_memory_vulnerabilities targetBuffer 139 0 0 secZero).buffer_overflow_risk = 5 := by
  decide

end RuneAnalyze
